import Mathlib

/-!
Shallow embedding of the water-ring game (src/script.js) and verification of
its specified properties.

The game logic is a thin layer over the Matter.js physics engine.  We embed
the original logic: world-builder constants and initial body layout, the
force dispatcher (generateWaterCurrent), the collisionStart handler, the win
evaluator (checkWinCondition) and the resize listener.  Positions, sizes and
forces are rational numbers; the randomized force angle, which goes through
cos/sin, is modelled over the reals.

Bodies live in a world list; the handler receives collision pairs as indices
into that list, which models the aliasing between the engine's pair objects
and the `rings` array of the script.
-/

namespace WaterRing

/-- Visual style record of a body: fill color, stroke color, line width
(the `render` option of Matter.js bodies used by the script). -/
structure RenderStyle where
  fillStyle : String
  strokeStyle : String
  lineWidth : ℚ
deriving DecidableEq

/-- The observable fields of a Matter.js body used by the script: label,
position, static flag, accumulated applied force, render style.
Parametric in the number type: ℚ for geometry, ℝ for the trigonometric
force computation. -/
structure Body (α : Type) where
  label : String
  px : α
  py : α
  isStatic : Bool
  fx : α
  fy : α
  render : RenderStyle
deriving DecidableEq

/-- numRings = 5 (src/script.js line 56). -/
def numRings : Nat := 5

/-- ringRadius = 20 (line 57). -/
def ringRadius : ℚ := 20

/-- goalWidth = 15 (line 83). -/
def goalWidth : ℚ := 15

/-- goalHeight = 60 (line 84). -/
def goalHeight : ℚ := 60

/-- numGoals = 3 (line 95). -/
def numGoals : Nat := 3

/-- world.gravity.y = 0.5 (line 32). -/
def gravityY : ℚ := 0.5

/-- Initial render style of a ring (lines 62-66). -/
def ringStyle : RenderStyle :=
  { fillStyle := "rgba(74, 105, 189, 0.7)", strokeStyle := "#4a69bd", lineWidth := 3 }

/-- Render style of a goal (lines 87-91). -/
def goalStyle : RenderStyle :=
  { fillStyle := "#2c3e50", strokeStyle := "#4a69bd", lineWidth := 2 }

/-- The "success" style written to a settled ring (lines 156-158). -/
def successStyle : RenderStyle :=
  { fillStyle := "#4CAF50", strokeStyle := "#333", lineWidth := 1 }

/-- Ring i as created by the ring creation loop (lines 70-79): circle at
x = width/2 + (i - floor(numRings/2))*50, y = height/2, non-static,
label "ring".  `numRings / 2` is natural division, matching
Math.floor(numRings / 2). -/
def makeRing (w h : ℚ) (i : Nat) : Body ℚ :=
  { label := "ring"
    px := w / 2 + ((i : ℚ) - ((numRings / 2 : Nat) : ℚ)) * 50
    py := h / 2
    isStatic := false
    fx := 0
    fy := 0
    render := ringStyle }

/-- Goal i as created by the goal creation loop (lines 96-102): static
rectangle at x = (width/(numGoals+1))*(i+1), y = height - goalHeight/2 - 10,
label "goal". -/
def makeGoal (w h : ℚ) (i : Nat) : Body ℚ :=
  { label := "goal"
    px := (w / ((numGoals : ℚ) + 1)) * ((i : ℚ) + 1)
    py := h - goalHeight / 2 - 10
    isStatic := true
    fx := 0
    fy := 0
    render := goalStyle }

/-- The `rings` array right after the creation loop. -/
def initRings (w h : ℚ) : List (Body ℚ) :=
  (List.range numRings).map (makeRing w h)

/-- The `goals` array right after the creation loop. -/
def initGoals (w h : ℚ) : List (Body ℚ) :=
  (List.range numGoals).map (makeGoal w h)

/-- forceMagnitude = 0.05 (line 111). -/
noncomputable def forceMagnitude : ℝ := 0.05

/-- forceAngle = -π/2 + (random - 0.5) * π/4 (line 112), as a function of the
single random draw r = Math.random() of the invocation. -/
noncomputable def forceAngle (r : ℝ) : ℝ :=
  -(Real.pi / 2) + (r - 1 / 2) * (Real.pi / 4)

/-- The force vector built from the draw r (lines 116-117):
(forceMagnitude * cos forceAngle, forceMagnitude * sin forceAngle). -/
noncomputable def forceVec (r : ℝ) : ℝ × ℝ :=
  (forceMagnitude * Real.cos (forceAngle r), forceMagnitude * Real.sin (forceAngle r))

/-- Matter.Body.applyForce at the body's own position: accumulates the force
vector on the body (line 118). -/
def applyForce {α : Type} [Add α] (Fx Fy : α) (b : Body α) : Body α :=
  { b with fx := b.fx + Fx, fy := b.fy + Fy }

/-- generateWaterCurrent's loop over the rings array (lines 114-120): the
force vector (Fx, Fy), computed once per invocation, is applied to each ring
that is not static; static rings are skipped. -/
def generateWaterCurrent {α : Type} [Add α] (Fx Fy : α) (rings : List (Body α)) :
    List (Body α) :=
  rings.map (fun ring => if ring.isStatic then ring else applyForce Fx Fy ring)

/-- The UI surface touched by the script: the message container's text and
the start button's disabled flag. -/
structure UI where
  message : String
  buttonDisabled : Bool
deriving DecidableEq

/-- The success message written on winning (line 171). -/
def winMessage : String := "全量子ビット安定！おめでとう！"

/-- checkWinCondition (lines 166-174): if every ring is static, set the
success message and disable the start button; otherwise leave the UI
untouched. -/
def checkWinUI (rings : List (Body ℚ)) (ui : UI) : UI :=
  if rings.all (fun ring => ring.isStatic) then
    { message := winMessage, buttonDisabled := true }
  else ui

/-- Game session state: the world's bodies, the indices of the `rings` array
elements within that list (pair objects alias world bodies, so collision
pairs are modelled as indices), the UI, and the recorded render size. -/
structure GameState where
  bodies : List (Body ℚ)
  ringIdx : List Nat
  ui : UI
  renderW : ℚ
  renderH : ℚ
deriving DecidableEq

/-- The current bodies of the `rings` array. -/
def ringsOf (s : GameState) : List (Body ℚ) :=
  s.ringIdx.filterMap (fun i => s.bodies[i]?)

/-- checkWinCondition acting on the session state. -/
def checkWinState (s : GameState) : GameState :=
  { s with ui := checkWinUI (ringsOf s) s.ui }

/-- Ring/goal pair matching (lines 135-143): if bodyA is a ring and bodyB a
goal, the ring is bodyA; if bodyA is a goal and bodyB a ring, the ring is
bodyB; otherwise ringBody/goalBody stay unset.  Returns the ring's index and
the two bodies (ring first). -/
def findRingGoal (ia ib : Nat) (A B : Body ℚ) : Option (Nat × Body ℚ × Body ℚ) :=
  if A.label = "ring" ∧ B.label = "goal" then some (ia, A, B)
  else if A.label = "goal" ∧ B.label = "ring" then some (ib, B, A)
  else none

/-- The containment test (lines 146-153): the ring's x strictly between
goalX - goalWidth/2 and goalX + goalWidth/2, and the ring's y strictly
greater than goalY - goalHeight/2. -/
def inGoal (ringBody goalBody : Body ℚ) : Bool :=
  decide (goalBody.px - goalWidth / 2 < ringBody.px) &&
  decide (ringBody.px < goalBody.px + goalWidth / 2) &&
  decide (goalBody.py - goalHeight / 2 < ringBody.py)

/-- Settling a ring (lines 155-158): Body.setStatic(ring, true) and the
success render style. -/
def settleRing (b : Body ℚ) : Body ℚ :=
  { b with isStatic := true, render := successStyle }

/-- Processing of one collision pair by the collisionStart handler
(lines 131-162).  The pair is given as the indices of bodyA and bodyB in the
world list.  If the pair is a ring/goal pair, the ring is not yet static,
and the containment test passes, the ring is settled in place and
checkWinCondition runs; otherwise nothing happens. -/
def processPair (s : GameState) (ia ib : Nat) : GameState :=
  match s.bodies[ia]?, s.bodies[ib]? with
  | some A, some B =>
    match findRingGoal ia ib A B with
    | some (ir, ringBody, goalBody) =>
      if ringBody.isStatic = false ∧ inGoal ringBody goalBody = true then
        checkWinState { s with bodies := s.bodies.set ir (settleRing ringBody) }
      else s
    | none => s
  | _, _ => s

/-- The collisionStart handler (lines 128-163): processes the event's pairs
in order. -/
def collisionStartHandler (s : GameState) (pairs : List (Nat × Nat)) : GameState :=
  pairs.foldl (fun acc p => processPair acc p.1 p.2) s

/-- One iteration of generateWaterCurrent's loop, at world level: apply the
force to the body at ring index i unless it is static. -/
def dispatchStep (Fx Fy : ℚ) (bs : List (Body ℚ)) (i : Nat) : List (Body ℚ) :=
  match bs[i]? with
  | some b => if b.isStatic then bs else bs.set i (applyForce Fx Fy b)
  | none => bs

/-- generateWaterCurrent acting on the session state: the rings array
elements are world bodies, so the update happens at the ring indices. -/
def dispatchCurrentState (Fx Fy : ℚ) (s : GameState) : GameState :=
  { s with bodies := s.ringIdx.foldl (dispatchStep Fx Fy) s.bodies }

/-- Modelled from the spec: the UI surface is an external collaborator not
present in src/ — a single actionable control triggers the Force Dispatcher,
and a disabled control is non-functional.  Activating the start control runs
generateWaterCurrent only while the control is enabled (line 124 wires the
click listener; disabling happens in checkWinCondition, line 172). -/
def clickStartControl (Fx Fy : ℚ) (s : GameState) : GameState :=
  if s.ui.buttonDisabled then s else dispatchCurrentState Fx Fy s

/-- The resize listener (lines 178-184): records the container's new client
size in the render options and touches nothing else. -/
def resizeHandler (s : GameState) (w h : ℚ) : GameState :=
  { s with renderW := w, renderH := h }

/-! Concrete fixtures for the scenario checks: a goal centered at x = 300
(span [292.5, 307.5], top bound 330), a ring inside the span at x = 295, a
ring outside at x = 200, and a settled ring. -/

/-- Initial UI: empty message, enabled start button. -/
def demoUI : UI := { message := "", buttonDisabled := false }

/-- A goal centered at (300, 360), as produced by makeGoal 600 400 1. -/
def demoGoal : Body ℚ :=
  { label := "goal", px := 300, py := 360, isStatic := true, fx := 0, fy := 0,
    render := goalStyle }

/-- A moving ring at (295, 350): inside the demo goal's span and below its
top bound. -/
def demoRingIn : Body ℚ :=
  { label := "ring", px := 295, py := 350, isStatic := false, fx := 0, fy := 0,
    render := ringStyle }

/-- A moving ring at (200, 350): outside the demo goal's span. -/
def demoRingOut : Body ℚ :=
  { label := "ring", px := 200, py := 350, isStatic := false, fx := 0, fy := 0,
    render := ringStyle }

/-- A ring that has already settled (static, success colors). -/
def demoStaticRing : Body ℚ :=
  { label := "ring", px := 150, py := 360, isStatic := true, fx := 0, fy := 0,
    render := successStyle }

/-- A rectangle body with Matter.js's default label, standing for a wall. -/
def demoWall : Body ℚ :=
  { label := "Rectangle Body", px := 300, py := 410, isStatic := true, fx := 0, fy := 0,
    render := { fillStyle := "#4a69bd", strokeStyle := "#4a69bd", lineWidth := 0 } }

/-- A session with two movable rings (indices 0 and 1) and the demo goal
(index 2). -/
def demoState : GameState :=
  { bodies := [demoRingIn, demoRingOut, demoGoal], ringIdx := [0, 1], ui := demoUI,
    renderW := 600, renderH := 400 }

/-- A won session: its only ring is static and the start button is
disabled. -/
def demoWonState : GameState :=
  { bodies := [demoStaticRing, demoGoal], ringIdx := [0],
    ui := { message := winMessage, buttonDisabled := true },
    renderW := 600, renderH := 400 }

/-- A session pairing a still-movable ring with a wall and a goal, used for
the no-effect checks. -/
def demoMixedState : GameState :=
  { bodies := [demoRingIn, demoWall, demoGoal, demoStaticRing], ringIdx := [0, 3],
    ui := demoUI, renderW := 600, renderH := 400 }

/-- All five rings settled. -/
def demoAllStatic : List (Body ℚ) :=
  [demoStaticRing, demoStaticRing, demoStaticRing, demoStaticRing, demoStaticRing]

/-- Four of five rings settled. -/
def demoFourStatic : List (Body ℚ) :=
  [demoStaticRing, demoStaticRing, demoStaticRing, demoStaticRing, demoRingOut]

/-- Three of five rings settled. -/
def demoThreeStatic : List (Body ℚ) :=
  [demoStaticRing, demoStaticRing, demoStaticRing, demoRingOut, demoRingIn]

/-- A movable ring over the reals, for the force-vector computation. -/
noncomputable def demoRealRing : Body ℝ :=
  { label := "ring", px := 0, py := 0, isStatic := false, fx := 0, fy := 0,
    render := ringStyle }

end WaterRing

namespace WaterRing

/-! Helper lemmas about the collision handler and the win evaluator. -/

/-- The containment test, spelled out with the spec's half-extents 7.5 and
30. -/
lemma inGoal_iff (ringBody goalBody : Body ℚ) :
    inGoal ringBody goalBody = true ↔
      (goalBody.px - 7.5 < ringBody.px ∧ ringBody.px < goalBody.px + 7.5 ∧
        goalBody.py - 30 < ringBody.py) := by
  rw [show (7.5 : ℚ) = 15 / 2 by norm_num, show (30 : ℚ) = 60 / 2 by norm_num]
  simp [inGoal, goalWidth, goalHeight, and_assoc]

/-- Case analysis of processPair: either nothing happens, or some
non-static ring body of the world is settled in place and the win check
runs. -/
lemma processPair_cases (s : GameState) (ia ib : Nat) :
    processPair s ia ib = s ∨
    ∃ ir rB, s.bodies[ir]? = some rB ∧ rB.isStatic = false ∧ rB.label = "ring" ∧
      processPair s ia ib =
        checkWinState { s with bodies := s.bodies.set ir (settleRing rB) } := by
  rcases hA : s.bodies[ia]? with _ | A
  · left; simp [processPair, hA]
  rcases hB : s.bodies[ib]? with _ | B
  · left; simp [processPair, hA, hB]
  by_cases h1 : A.label = "ring" ∧ B.label = "goal"
  · by_cases h2 : A.isStatic = false ∧ inGoal A B = true
    · exact Or.inr ⟨ia, A, hA, h2.1, h1.1,
        by simp [processPair, hA, hB, findRingGoal, h1, h2]⟩
    · left; simp [processPair, hA, hB, findRingGoal, h1, h2]
  · by_cases h3 : A.label = "goal" ∧ B.label = "ring"
    · by_cases h2 : B.isStatic = false ∧ inGoal B A = true
      · exact Or.inr ⟨ib, B, hB, h2.1, h3.2,
          by simp [processPair, hA, hB, findRingGoal, h1, h3, h2]⟩
      · left; simp [processPair, hA, hB, findRingGoal, h1, h3, h2]
    · left; simp [processPair, hA, hB, findRingGoal, h1, h3]

/-- When a ring/goal pair (in either order) holds a non-static ring that
passes the containment test, processPair settles exactly that ring and runs
the win check. -/
lemma processPair_settle (s : GameState) (ia ib ir ig : Nat) (rB gB : Body ℚ)
    (hr : s.bodies[ir]? = some rB) (hg : s.bodies[ig]? = some gB)
    (horient : (ia = ir ∧ ib = ig) ∨ (ia = ig ∧ ib = ir))
    (hrl : rB.label = "ring") (hgl : gB.label = "goal")
    (hns : rB.isStatic = false) (hin : inGoal rB gB = true) :
    processPair s ia ib =
      checkWinState { s with bodies := s.bodies.set ir (settleRing rB) } := by
  rcases horient with ⟨hia, hib⟩ | ⟨hia, hib⟩ <;> subst hia <;> subst hib <;>
    simp [processPair, hr, hg, findRingGoal, hrl, hgl, hns, hin]

/-- When the ring of a ring/goal pair is non-static but fails the
containment test, processPair changes nothing. -/
lemma processPair_noSettle (s : GameState) (ia ib ir ig : Nat) (rB gB : Body ℚ)
    (hr : s.bodies[ir]? = some rB) (hg : s.bodies[ig]? = some gB)
    (horient : (ia = ir ∧ ib = ig) ∨ (ia = ig ∧ ib = ir))
    (hrl : rB.label = "ring") (hgl : gB.label = "goal")
    (hns : rB.isStatic = false) (hin : inGoal rB gB = false) :
    processPair s ia ib = s := by
  rcases horient with ⟨hia, hib⟩ | ⟨hia, hib⟩ <;> subst hia <;> subst hib <;>
    simp [processPair, hr, hg, findRingGoal, hrl, hgl, hns, hin]

/-- checkWinCondition never re-enables a disabled start button. -/
lemma checkWinUI_disabledMono (rings : List (Body ℚ)) (ui : UI)
    (hd : ui.buttonDisabled = true) :
    (checkWinUI rings ui).buttonDisabled = true := by
  unfold checkWinUI
  split <;> simp [hd]

/-- processPair never re-enables a disabled start button. -/
lemma processPair_disabledMono (s : GameState) (ia ib : Nat)
    (hd : s.ui.buttonDisabled = true) :
    (processPair s ia ib).ui.buttonDisabled = true := by
  rcases processPair_cases s ia ib with h | ⟨ir, rB, _, _, _, h⟩
  · rw [h]; exact hd
  · rw [h]; exact checkWinUI_disabledMono _ _ hd

/-- The collisionStart handler never re-enables a disabled start button. -/
lemma collisionStart_disabledMono (pairs : List (Nat × Nat)) (s : GameState)
    (hd : s.ui.buttonDisabled = true) :
    (collisionStartHandler s pairs).ui.buttonDisabled = true := by
  induction pairs generalizing s with
  | nil => exact hd
  | cons p rest ih =>
    exact ih (processPair s p.1 p.2) (processPair_disabledMono s p.1 p.2 hd)

/-- processPair preserves every body's label, and leaves every body that is
already static entirely unchanged. -/
lemma processPair_staticMono (s : GameState) (ia ib j : Nat) (b : Body ℚ)
    (hb : s.bodies[j]? = some b) :
    ∃ b', (processPair s ia ib).bodies[j]? = some b' ∧
      b'.label = b.label ∧ (b.isStatic = true → b' = b) := by
  rcases processPair_cases s ia ib with h | ⟨ir, rB, hr, hns, _, h⟩
  · exact ⟨b, by rw [h]; exact hb, rfl, fun _ => rfl⟩
  · rw [h]
    show ∃ b', (s.bodies.set ir (settleRing rB))[j]? = some b' ∧ _
    by_cases hj : ir = j
    · subst hj
      have hlt : ir < s.bodies.length := (List.getElem?_eq_some.mp hr).1
      have hbr : b = rB := by rw [hb] at hr; exact Option.some.inj hr
      subst hbr
      refine ⟨settleRing b, List.getElem?_set_eq_of_lt _ hlt, rfl, ?_⟩
      intro hs
      rw [hs] at hns
      exact absurd hns (by simp)
    · exact ⟨b, by rw [List.getElem?_set_ne hj]; exact hb, rfl, fun _ => rfl⟩

/-- The collisionStart handler preserves labels and never touches a body
that is already static. -/
lemma collisionStart_staticMono (pairs : List (Nat × Nat)) (s : GameState)
    (j : Nat) (b : Body ℚ) (hb : s.bodies[j]? = some b) :
    ∃ b', (collisionStartHandler s pairs).bodies[j]? = some b' ∧
      b'.label = b.label ∧ (b.isStatic = true → b' = b) := by
  induction pairs generalizing s b with
  | nil => exact ⟨b, hb, rfl, fun _ => rfl⟩
  | cons p rest ih =>
    obtain ⟨b1, hb1, hl1, hs1⟩ := processPair_staticMono s p.1 p.2 j b hb
    obtain ⟨b2, hb2, hl2, hs2⟩ := ih (processPair s p.1 p.2) b1 hb1
    refine ⟨b2, hb2, hl2.trans hl1, ?_⟩
    intro hs
    have he1 : b1 = b := hs1 hs
    rw [he1] at hs2
    exact hs2 hs

/-- One step of the force-dispatch fold preserves labels, preserves the
static flag, and leaves static bodies entirely unchanged. -/
lemma dispatchStep_frame (bs : List (Body ℚ)) (Fx Fy : ℚ) (i j : Nat)
    (b : Body ℚ) (hb : bs[j]? = some b) :
    ∃ b', (dispatchStep Fx Fy bs i)[j]? = some b' ∧
      b'.label = b.label ∧ b'.isStatic = b.isStatic ∧ (b.isStatic = true → b' = b) := by
  unfold dispatchStep
  rcases hc : bs[i]? with _ | c
  · exact ⟨b, hb, rfl, rfl, fun _ => rfl⟩
  by_cases hcs : c.isStatic
  · exact ⟨b, by simp [hcs, hb], rfl, rfl, fun _ => rfl⟩
  by_cases hij : i = j
  · subst hij
    have hcb : c = b := by rw [hb] at hc; exact (Option.some.inj hc).symm
    subst hcb
    have hlt : i < bs.length := (List.getElem?_eq_some.mp hc).1
    refine ⟨applyForce Fx Fy c, ?_, rfl, rfl, ?_⟩
    · show (if c.isStatic = true then bs
            else bs.set i (applyForce Fx Fy c))[i]? = some (applyForce Fx Fy c)
      rw [if_neg hcs]
      exact List.getElem?_set_eq_of_lt _ hlt
    · intro hs; exact absurd hs (by simpa using hcs)
  · refine ⟨b, ?_, rfl, rfl, fun _ => rfl⟩
    show (if c.isStatic = true then bs
          else bs.set i (applyForce Fx Fy c))[j]? = some b
    rw [if_neg hcs, List.getElem?_set_ne hij]
    exact hb

/-- The force-dispatch fold preserves labels and static flags, and leaves
static bodies entirely unchanged. -/
lemma dispatchFold_frame (idxs : List Nat) (Fx Fy : ℚ) (bs : List (Body ℚ))
    (j : Nat) (b : Body ℚ) (hb : bs[j]? = some b) :
    ∃ b', (idxs.foldl (dispatchStep Fx Fy) bs)[j]? = some b' ∧
      b'.label = b.label ∧ b'.isStatic = b.isStatic ∧ (b.isStatic = true → b' = b) := by
  induction idxs generalizing bs b with
  | nil => exact ⟨b, hb, rfl, rfl, fun _ => rfl⟩
  | cons i rest ih =>
    obtain ⟨b1, hb1, hl1, hs1, he1⟩ := dispatchStep_frame bs Fx Fy i j b hb
    obtain ⟨b2, hb2, hl2, hs2, he2⟩ := ih (dispatchStep Fx Fy bs i) b1 hb1
    refine ⟨b2, hb2, hl2.trans hl1, hs2.trans hs1, ?_⟩
    intro hs
    have hb1b : b1 = b := he1 hs
    rw [hb1b] at he2
    exact he2 hs

/-- The state-level force dispatch preserves labels and static flags, and
leaves static bodies entirely unchanged. -/
lemma dispatchCurrentState_frame (Fx Fy : ℚ) (s : GameState) (j : Nat)
    (b : Body ℚ) (hb : s.bodies[j]? = some b) :
    ∃ b', (dispatchCurrentState Fx Fy s).bodies[j]? = some b' ∧
      b'.label = b.label ∧ b'.isStatic = b.isStatic ∧ (b.isStatic = true → b' = b) :=
  dispatchFold_frame s.ringIdx Fx Fy s.bodies j b hb

/-- Claim C6: with a 600×400 container the world builder sets gravity.y to
0.5, places ring i at x = 300 + (i-2)*50, y = 200 (x-coordinates
200,250,300,350,400), and places the three goals at x = 150, 300, 450 with
y ≈ 370 (the exact value is 360 = 400 - 60/2 - 10, within 10 of 370). -/
theorem worldBuilder_layout_600x400 :
    gravityY = 0.5 ∧
    (initRings 600 400).map (fun b => b.px) =
      (List.range 5).map (fun i => 300 + ((i : ℚ) - 2) * 50) ∧
    (initRings 600 400).map (fun b => b.px) = [200, 250, 300, 350, 400] ∧
    (initRings 600 400).map (fun b => b.py) = [200, 200, 200, 200, 200] ∧
    (initGoals 600 400).map (fun b => b.px) = [150, 300, 450] ∧
    (initGoals 600 400).map (fun b => b.py) = [360, 360, 360] ∧
    |(360 : ℚ) - 370| ≤ 10 := by
  have h5 : List.range 5 = [0, 1, 2, 3, 4] := rfl
  have h3 : List.range 3 = [0, 1, 2] := rfl
  refine ⟨rfl, ?_, ?_, ?_, ?_, ?_, by norm_num⟩ <;>
    simp [initRings, initGoals, makeRing, makeGoal, numRings, numGoals, goalHeight, h5, h3] <;>
    norm_num

/-- Claim C1: for a collision pair in which exactly one body is labelled
"ring" and the other "goal" (either order) and the ring is not already
static, the handler settles the ring (sets it static, recolors it) iff the
ring's x lies strictly between the goal's x ± 7.5 and the ring's y is
strictly greater than the goal's y - 30. -/
theorem collisionJudge_settle_iff (s : GameState) (ia ib ir ig : Nat)
    (rB gB : Body ℚ)
    (hr : s.bodies[ir]? = some rB) (hg : s.bodies[ig]? = some gB)
    (horient : (ia = ir ∧ ib = ig) ∨ (ia = ig ∧ ib = ir))
    (hrl : rB.label = "ring") (hgl : gB.label = "goal")
    (hns : rB.isStatic = false) :
    ((processPair s ia ib).bodies[ir]? = some (settleRing rB) ∧
        (settleRing rB).isStatic = true ∧ (settleRing rB).render = successStyle) ↔
      (gB.px - 7.5 < rB.px ∧ rB.px < gB.px + 7.5 ∧ gB.py - 30 < rB.py) := by
  have hlt : ir < s.bodies.length := (List.getElem?_eq_some.mp hr).1
  by_cases hin : inGoal rB gB = true
  · constructor
    · intro _
      exact (inGoal_iff rB gB).mp hin
    · intro _
      rw [processPair_settle s ia ib ir ig rB gB hr hg horient hrl hgl hns hin]
      refine ⟨?_, rfl, rfl⟩
      show (s.bodies.set ir (settleRing rB))[ir]? = some (settleRing rB)
      exact List.getElem?_set_eq_of_lt _ hlt
  · have hin' : inGoal rB gB = false := by simpa using hin
    constructor
    · intro hset
      rw [processPair_noSettle s ia ib ir ig rB gB hr hg horient hrl hgl hns hin']
        at hset
      rw [hr] at hset
      have h2 := congrArg Body.isStatic (Option.some.inj hset.1)
      simp [settleRing, hns] at h2
    · intro hc
      exact absurd ((inGoal_iff rB gB).mpr hc) (by simp [hin'])

/-- Witness for C1: the ring at x = 295 paired with the goal centered at
x = 300 settles; the ring at x = 200 paired with that goal does not. -/
theorem collisionJudge_settle_iff_witness :
    ((processPair demoState 0 2).bodies[0]? = some (settleRing demoRingIn) ∧
      (settleRing demoRingIn).isStatic = true ∧
      (settleRing demoRingIn).render = successStyle) ∧
    ¬((processPair demoState 1 2).bodies[1]? = some (settleRing demoRingOut) ∧
        (settleRing demoRingOut).isStatic = true ∧
        (settleRing demoRingOut).render = successStyle) := by
  constructor
  · exact (collisionJudge_settle_iff demoState 0 2 0 2 demoRingIn demoGoal rfl rfl
      (Or.inl ⟨rfl, rfl⟩) rfl rfl rfl).mpr (by norm_num [demoRingIn, demoGoal])
  · intro hset
    have hc := (collisionJudge_settle_iff demoState 1 2 1 2 demoRingOut demoGoal rfl rfl
      (Or.inl ⟨rfl, rfl⟩) rfl rfl rfl).mp hset
    norm_num [demoRingOut, demoGoal] at hc

/-- Claim C2: checkWinCondition sets the success message and disables the
start button iff every ring in the ring list is static, and it is invoked
after every individual settling event. -/
theorem winEvaluator_spec (rings : List (Body ℚ)) (ui : UI)
    (s : GameState) (ia ib ir ig : Nat) (rB gB : Body ℚ)
    (hr : s.bodies[ir]? = some rB) (hg : s.bodies[ig]? = some gB)
    (horient : (ia = ir ∧ ib = ig) ∨ (ia = ig ∧ ib = ir))
    (hrl : rB.label = "ring") (hgl : gB.label = "goal")
    (hns : rB.isStatic = false) (hin : inGoal rB gB = true) :
    (rings.all (fun ring => ring.isStatic) = true →
      checkWinUI rings ui = { message := winMessage, buttonDisabled := true }) ∧
    (rings.all (fun ring => ring.isStatic) = false → checkWinUI rings ui = ui) ∧
    (processPair s ia ib).ui =
      checkWinUI (ringsOf { s with bodies := s.bodies.set ir (settleRing rB) })
        s.ui := by
  refine ⟨fun h => by simp [checkWinUI, h], fun h => by simp [checkWinUI, h], ?_⟩
  rw [processPair_settle s ia ib ir ig rB gB hr hg horient hrl hgl hns hin]
  rfl

/-- Witness for C2: with all five rings settled the success message is set
and the button disabled; with four of five settled the UI is unchanged. -/
theorem winEvaluator_spec_witness :
    checkWinUI demoAllStatic demoUI = { message := winMessage, buttonDisabled := true } ∧
    checkWinUI demoFourStatic demoUI = demoUI := by
  constructor
  · exact (winEvaluator_spec demoAllStatic demoUI demoState 0 2 0 2 demoRingIn demoGoal
      rfl rfl (Or.inl ⟨rfl, rfl⟩) rfl rfl rfl
      (by norm_num [inGoal, goalWidth, goalHeight, demoRingIn, demoGoal])).1 rfl
  · exact (winEvaluator_spec demoFourStatic demoUI demoState 0 2 0 2 demoRingIn demoGoal
      rfl rfl (Or.inl ⟨rfl, rfl⟩) rfl rfl rfl
      (by norm_num [inGoal, goalWidth, goalHeight, demoRingIn, demoGoal])).2.1 rfl

/-- Claim C3: every ring is created non-static with label "ring"; force
dispatch, collision handling, win evaluation and resize never turn a static
body non-static again (a static body is left entirely unchanged), and no
operation changes a body's label. -/
theorem ring_staticFlag_oneWay :
    (∀ (w h : ℚ) (i : Nat),
      (makeRing w h i).isStatic = false ∧ (makeRing w h i).label = "ring") ∧
    (∀ (Fx Fy : ℚ) (rings : List (Body ℚ)) (j : Nat) (b : Body ℚ),
      rings[j]? = some b →
      ∃ b', (generateWaterCurrent Fx Fy rings)[j]? = some b' ∧
        b'.label = b.label ∧ b'.isStatic = b.isStatic ∧
        (b.isStatic = true → b' = b)) ∧
    (∀ (s : GameState) (ia ib j : Nat) (b : Body ℚ), s.bodies[j]? = some b →
      ∃ b', (processPair s ia ib).bodies[j]? = some b' ∧
        b'.label = b.label ∧ (b.isStatic = true → b' = b)) ∧
    (∀ (s : GameState) (pairs : List (Nat × Nat)) (j : Nat) (b : Body ℚ),
      s.bodies[j]? = some b →
      ∃ b', (collisionStartHandler s pairs).bodies[j]? = some b' ∧
        b'.label = b.label ∧ (b.isStatic = true → b' = b)) ∧
    (∀ s : GameState, (checkWinState s).bodies = s.bodies) ∧
    (∀ (s : GameState) (w h : ℚ), (resizeHandler s w h).bodies = s.bodies) ∧
    (∀ (Fx Fy : ℚ) (s : GameState) (j : Nat) (b : Body ℚ), s.bodies[j]? = some b →
      ∃ b', (clickStartControl Fx Fy s).bodies[j]? = some b' ∧
        b'.label = b.label ∧ b'.isStatic = b.isStatic ∧
        (b.isStatic = true → b' = b)) := by
  refine ⟨fun w h i => ⟨rfl, rfl⟩, ?_, ?_, ?_, fun s => rfl, fun s w h => rfl, ?_⟩
  · intro Fx Fy rings j b hb
    by_cases hs : b.isStatic
    · exact ⟨b, by simp [generateWaterCurrent, List.getElem?_map, hb, hs],
        rfl, rfl, fun _ => rfl⟩
    · exact ⟨applyForce Fx Fy b,
        by simp [generateWaterCurrent, List.getElem?_map, hb, hs],
        rfl, rfl, fun h => absurd h (by simpa using hs)⟩
  · exact fun s ia ib j b hb => processPair_staticMono s ia ib j b hb
  · exact fun s pairs j b hb => collisionStart_staticMono pairs s j b hb
  · intro Fx Fy s j b hb
    unfold clickStartControl
    split
    · exact ⟨b, hb, rfl, rfl, fun _ => rfl⟩
    · exact dispatchCurrentState_frame Fx Fy s j b hb

/-- Witness for C3: a freshly created ring is non-static and labelled
"ring", and an already-settled ring survives a further collision event
unchanged. -/
theorem ring_staticFlag_oneWay_witness :
    (makeRing 600 400 0).isStatic = false ∧ (makeRing 600 400 0).label = "ring" ∧
    (processPair demoWonState 0 1).bodies[0]? = some demoStaticRing := by
  obtain ⟨b', h1, _, h3⟩ :=
    ring_staticFlag_oneWay.2.2.1 demoWonState 0 1 0 demoStaticRing rfl
  have hb := h3 rfl
  rw [hb] at h1
  exact ⟨(ring_staticFlag_oneWay.1 600 400 0).1,
    (ring_staticFlag_oneWay.1 600 400 0).2, h1⟩

/-- Claim C4: each invocation of generateWaterCurrent draws one random
angle, lying in the 45° arc centered on straight up (-π/2 ± π/8) and
depending affinely (hence uniformly) on the uniform draw r ∈ [0,1); it
forms a single force vector of magnitude 0.05 from that angle and applies
that same vector to every non-static ring. -/
theorem forceDispatcher_randomVector (r : ℝ) (h0 : 0 ≤ r) (h1 : r < 1) :
    forceAngle r = (-(Real.pi / 2) - Real.pi / 8) + r * (Real.pi / 4) ∧
    -(Real.pi / 2) - Real.pi / 8 ≤ forceAngle r ∧
    forceAngle r < -(Real.pi / 2) + Real.pi / 8 ∧
    (forceVec r).1 ^ 2 + (forceVec r).2 ^ 2 = forceMagnitude ^ 2 ∧
    forceMagnitude = 0.05 ∧
    (∀ (rings : List (Body ℝ)) (j : Nat) (b : Body ℝ), rings[j]? = some b →
      b.isStatic = false →
      (generateWaterCurrent (forceVec r).1 (forceVec r).2 rings)[j]? =
        some { b with fx := b.fx + (forceVec r).1, fy := b.fy + (forceVec r).2 }) := by
  have hπ := Real.pi_pos
  refine ⟨by unfold forceAngle; ring, ?_, ?_, ?_, rfl, ?_⟩
  · unfold forceAngle
    nlinarith [mul_nonneg h0 hπ.le]
  · unfold forceAngle
    nlinarith [mul_pos (sub_pos.mpr h1) hπ]
  · show (forceMagnitude * Real.cos (forceAngle r)) ^ 2 +
        (forceMagnitude * Real.sin (forceAngle r)) ^ 2 = forceMagnitude ^ 2
    calc (forceMagnitude * Real.cos (forceAngle r)) ^ 2 +
          (forceMagnitude * Real.sin (forceAngle r)) ^ 2
        = forceMagnitude ^ 2 *
            (Real.sin (forceAngle r) ^ 2 + Real.cos (forceAngle r) ^ 2) := by ring
      _ = forceMagnitude ^ 2 := by rw [Real.sin_sq_add_cos_sq, mul_one]
  · intro rings j b hb hs
    simp [generateWaterCurrent, List.getElem?_map, hb, hs, applyForce]

/-- Witness for C4: the draw r = 1/2 gives the straight-up angle -π/2, its
force vector has squared magnitude 0.05², and it is applied to a movable
ring. -/
theorem forceDispatcher_randomVector_witness :
    (0 : ℝ) ≤ 1 / 2 ∧ (1 / 2 : ℝ) < 1 ∧
    forceAngle (1 / 2) = (-(Real.pi / 2) - Real.pi / 8) + (1 / 2) * (Real.pi / 4) ∧
    (forceVec (1 / 2)).1 ^ 2 + (forceVec (1 / 2)).2 ^ 2 = forceMagnitude ^ 2 ∧
    (generateWaterCurrent (forceVec (1 / 2)).1 (forceVec (1 / 2)).2
        [demoRealRing])[0]? =
      some { demoRealRing with
              fx := demoRealRing.fx + (forceVec (1 / 2)).1,
              fy := demoRealRing.fy + (forceVec (1 / 2)).2 } := by
  have H := forceDispatcher_randomVector (1 / 2) (by norm_num) (by norm_num)
  exact ⟨by norm_num, by norm_num, H.1, H.2.2.2.1,
    H.2.2.2.2.2 [demoRealRing] 0 demoRealRing rfl rfl⟩

/-- Claim C5: the force dispatcher leaves every static ring entirely
unchanged (no force applied, no state change) and applies the force exactly
to the non-static rings; the ring list keeps its length. -/
theorem forceDispatcher_skipsStatic (Fx Fy : ℚ) (rings : List (Body ℚ))
    (j : Nat) (b : Body ℚ) (hb : rings[j]? = some b) :
    (b.isStatic = true → (generateWaterCurrent Fx Fy rings)[j]? = some b) ∧
    (b.isStatic = false →
      (generateWaterCurrent Fx Fy rings)[j]? = some (applyForce Fx Fy b)) ∧
    (generateWaterCurrent Fx Fy rings).length = rings.length := by
  refine ⟨fun hs => ?_, fun hs => ?_, by simp [generateWaterCurrent]⟩ <;>
    simp [generateWaterCurrent, List.getElem?_map, hb, hs]

/-- Witness for C5: with three of five rings settled, an invocation leaves
a settled ring untouched and perturbs a movable ring. -/
theorem forceDispatcher_skipsStatic_witness :
    ((generateWaterCurrent 0 (-(1 / 20)) demoThreeStatic)[0]? = some demoStaticRing) ∧
    ((generateWaterCurrent 0 (-(1 / 20)) demoThreeStatic)[3]? =
      some (applyForce 0 (-(1 / 20)) demoRingOut)) :=
  ⟨(forceDispatcher_skipsStatic 0 (-(1 / 20)) demoThreeStatic 0 demoStaticRing rfl).1 rfl,
    (forceDispatcher_skipsStatic 0 (-(1 / 20)) demoThreeStatic 3 demoRingOut rfl).2.1 rfl⟩

/-- Claim C7: a collision pair whose two bodies are not exactly one ring
and one goal (in either order), or whose ring member is already static,
changes nothing: the handler returns the state unchanged. -/
theorem collisionJudge_noEffect (s : GameState) (ia ib : Nat) (A B : Body ℚ)
    (hA : s.bodies[ia]? = some A) (hB : s.bodies[ib]? = some B)
    (h : (¬(A.label = "ring" ∧ B.label = "goal") ∧
            ¬(A.label = "goal" ∧ B.label = "ring")) ∨
         (A.label = "ring" ∧ B.label = "goal" ∧ A.isStatic = true) ∨
         (A.label = "goal" ∧ B.label = "ring" ∧ B.isStatic = true)) :
    processPair s ia ib = s := by
  have hgr : ("goal" : String) ≠ "ring" := by decide
  rcases h with ⟨h1, h2⟩ | ⟨h1, h2, h3⟩ | ⟨h1, h2, h3⟩
  · simp [processPair, hA, hB, findRingGoal, h1, h2]
  · simp [processPair, hA, hB, findRingGoal, h1, h2, h3]
  · simp [processPair, hA, hB, findRingGoal, h1, h2, h3, hgr]

/-- Witness for C7: a ring/wall pair has no effect, and a pair whose ring
is already settled has no effect. -/
theorem collisionJudge_noEffect_witness :
    processPair demoMixedState 0 1 = demoMixedState ∧
    processPair demoMixedState 3 2 = demoMixedState :=
  ⟨collisionJudge_noEffect demoMixedState 0 1 demoRingIn demoWall rfl rfl
      (Or.inl ⟨by decide, by decide⟩),
    collisionJudge_noEffect demoMixedState 3 2 demoStaticRing demoGoal rfl rfl
      (Or.inr (Or.inl ⟨rfl, rfl, rfl⟩))⟩

/-- Claim C8: once the start button is disabled it stays disabled across
every operation of the program, and activating the control does nothing. -/
theorem won_control_stays_disabled (s : GameState)
    (hd : s.ui.buttonDisabled = true) (Fx Fy : ℚ) (ia ib : Nat)
    (pairs : List (Nat × Nat)) (w h : ℚ) :
    clickStartControl Fx Fy s = s ∧
    (processPair s ia ib).ui.buttonDisabled = true ∧
    (collisionStartHandler s pairs).ui.buttonDisabled = true ∧
    (checkWinState s).ui.buttonDisabled = true ∧
    (resizeHandler s w h).ui.buttonDisabled = true :=
  ⟨by simp [clickStartControl, hd],
    processPair_disabledMono s ia ib hd,
    collisionStart_disabledMono pairs s hd,
    checkWinUI_disabledMono (ringsOf s) s.ui hd,
    hd⟩

/-- Witness for C8: in a won session every operation leaves the button
disabled and the control inert. -/
theorem won_control_stays_disabled_witness :
    clickStartControl (1 / 20) 0 demoWonState = demoWonState ∧
    (processPair demoWonState 0 1).ui.buttonDisabled = true ∧
    (collisionStartHandler demoWonState [(0, 1)]).ui.buttonDisabled = true ∧
    (checkWinState demoWonState).ui.buttonDisabled = true ∧
    (resizeHandler demoWonState 800 600).ui.buttonDisabled = true :=
  won_control_stays_disabled demoWonState rfl (1 / 20) 0 0 1 [(0, 1)] 800 600

/-- Claim C9: the resize handler updates only the recorded render width and
height; bodies, ring list and UI keep their values. -/
theorem resize_updatesOnlyRenderSize (s : GameState) (w h : ℚ) :
    (resizeHandler s w h).bodies = s.bodies ∧
    (resizeHandler s w h).ringIdx = s.ringIdx ∧
    (resizeHandler s w h).ui = s.ui ∧
    (resizeHandler s w h).renderW = w ∧
    (resizeHandler s w h).renderH = h :=
  ⟨rfl, rfl, rfl, rfl, rfl⟩

/-- Claim C10: when the handler settles a ring, the only fields it writes
on the ring are the static flag and the three render style fields; the
ring's position, label and accumulated force are unchanged, the goal body
of the pair is not mutated, and neither is any other body. -/
theorem collisionJudge_settle_frame (s : GameState) (ia ib ir ig : Nat)
    (rB gB : Body ℚ)
    (hr : s.bodies[ir]? = some rB) (hg : s.bodies[ig]? = some gB)
    (horient : (ia = ir ∧ ib = ig) ∨ (ia = ig ∧ ib = ir))
    (hrl : rB.label = "ring") (hgl : gB.label = "goal")
    (hns : rB.isStatic = false) (hin : inGoal rB gB = true) :
    (processPair s ia ib).bodies = s.bodies.set ir (settleRing rB) ∧
    (settleRing rB).px = rB.px ∧ (settleRing rB).py = rB.py ∧
    (settleRing rB).label = rB.label ∧
    (settleRing rB).fx = rB.fx ∧ (settleRing rB).fy = rB.fy ∧
    (settleRing rB).isStatic = true ∧ (settleRing rB).render = successStyle ∧
    ir ≠ ig ∧
    (processPair s ia ib).bodies[ig]? = some gB ∧
    (∀ j, j ≠ ir → (processPair s ia ib).bodies[j]? = s.bodies[j]?) := by
  have hbodies : (processPair s ia ib).bodies = s.bodies.set ir (settleRing rB) := by
    rw [processPair_settle s ia ib ir ig rB gB hr hg horient hrl hgl hns hin]
    rfl
  have hne : ir ≠ ig := by
    intro he
    rw [he] at hr
    have heq : rB = gB := by rw [hr] at hg; exact Option.some.inj hg
    have hlab : rB.label = gB.label := congrArg Body.label heq
    rw [hrl, hgl] at hlab
    exact absurd hlab (by decide)
  refine ⟨hbodies, rfl, rfl, rfl, rfl, rfl, rfl, rfl, hne, ?_, ?_⟩
  · rw [hbodies, List.getElem?_set_ne hne]
    exact hg
  · intro j hj
    rw [hbodies, List.getElem?_set_ne (Ne.symm hj)]

/-- Witness for C10: settling the demo ring rewrites exactly the ring's
slot, keeps its position and label, and leaves the goal and the other ring
untouched. -/
theorem collisionJudge_settle_frame_witness :
    (processPair demoState 0 2).bodies =
      demoState.bodies.set 0 (settleRing demoRingIn) ∧
    (settleRing demoRingIn).px = demoRingIn.px ∧
    (settleRing demoRingIn).label = demoRingIn.label ∧
    (processPair demoState 0 2).bodies[2]? = some demoGoal ∧
    (processPair demoState 0 2).bodies[1]? = demoState.bodies[1]? := by
  obtain ⟨hb, hpx, _, hlab, _, _, _, _, _, hgoal, hframe⟩ :=
    collisionJudge_settle_frame demoState 0 2 0 2 demoRingIn demoGoal rfl rfl
      (Or.inl ⟨rfl, rfl⟩) rfl rfl rfl
      (by norm_num [inGoal, goalWidth, goalHeight, demoRingIn, demoGoal])
  exact ⟨hb, hpx, hlab, hgoal, hframe 1 (by decide)⟩

end WaterRing
